import Mathlib

/-!
Shallow embedding of the Automate_mailer batch mail-merge pipeline
(src/app.py, src/valid_email.py).

Strings are modelled as `List Char` (`Str`).  Row values are modelled by
`Value` (string, integer, boolean, or the pandas null/NaN marker); Python
`str(v)` is `pyStr`, and the truthiness of `None | bool` is `pyTruthy`.

`fill_template` (src/app.py:76-81) calls `template.format_map(SafeDict ...)`
where the dict maps every row key to `"" if pd.isna(v) else str(v)` and a
missing key yields `""`.  `fmtScan` models CPython's format-string scanner
for the feature subset this program uses: literal text, `\x7b\x7b` / `\x7d\x7d`
escapes, and named replacement fields `\x7bname\x7d`.  A single unmatched brace
raises `ValueError`; an empty or all-digit field name is a positional field,
which raises `IndexError` under `format_map` (no positional arguments).
Format specs / conversions (`:`/`!`) and attribute/index access inside a
field name are not modelled; theorems that quantify over templates restrict
field names to exclude those characters.
-/

abbrev Str := List Char

/-- `String.data` of a Lean string literal, as our `Str`. -/
def s2c (s : String) : Str := s.data

/-- A scalar cell value of a dataset row (pandas row turned into a dict). -/
inductive Value where
  | str (s : Str)
  | int (n : Int)
  | bool (b : Bool)
  | nan
deriving DecidableEq, Repr

/-- Python `pd.isna(v)` for the scalars we model: true exactly on the
null/NaN marker. -/
def Value.isna : Value → Bool
  | .nan => true
  | _ => false

/-- Python `str(v)` for the scalars we model (`str(True) = "True"`,
`str(float("nan")) = "nan"`). -/
def pyStr : Value → Str
  | .str s => s
  | .int n => s2c (toString n)
  | .bool true => s2c "True"
  | .bool false => s2c "False"
  | .nan => s2c "nan"

/-- A row: association list from column name to value.  Python builds a
`dict` from it, where a later binding for the same key overwrites an
earlier one, hence lookup takes the LAST matching binding. -/
abbrev Row := List (Str × Value)

/-- Lookup in a Python dict built from an association list: last binding
for a key wins. -/
def pyDictLookup (l : List (Str × Value)) (k : Str) : Option Value :=
  l.reverse.lookup k

/-- Lookup in the string-valued `SafeDict` of `fill_template`: last binding
wins, and a missing key yields the empty string (`SafeDict.__missing__`). -/
def safeDictLookup (d : List (Str × Str)) (k : Str) : Str :=
  (d.reverse.lookup k).getD []

/-- The dict `fill_template` builds from a row:
`\x7bk: ("" if pd.isna(v) else str(v)) for k, v in row.items()\x7d`. -/
def convertRow (row : Row) : List (Str × Str) :=
  row.map (fun kv => (kv.1, if kv.2.isna then [] else pyStr kv.2))

/-- Scan a replacement field's name up to the closing brace; `none` when the
string ends with no closing brace (Python: `ValueError: expected '\x7d'
before end of string`). -/
def takeField : Str → Option (Str × Str)
  | [] => none
  | c :: rest =>
    if c = '}' then some ([], rest)
    else match takeField rest with
      | none => none
      | some (n, r) => some (c :: n, r)

/-- `ValueError: Single '\x7b' encountered in format string`. -/
def errSingleOpen : Str := s2c "ValueError: Single open brace encountered in format string"

/-- `ValueError: Single '\x7d' encountered in format string`. -/
def errSingleClose : Str := s2c "ValueError: Single close brace encountered in format string"

/-- `ValueError: expected '\x7d' before end of string`. -/
def errUnterminated : Str := s2c "ValueError: expected close brace before end of string"

/-- `IndexError` raised by an automatic/explicit positional field under
`format_map`, which supplies no positional arguments. -/
def errPositional : Str := s2c "IndexError: replacement index out of range"

/-- CPython's format-string scanner, specialised to
`template.format_map(SafeDict d)`: doubled braces are escapes, `\x7bname\x7d`
is replaced by `safeDictLookup d name`, an unmatched brace raises, and a
positional field (empty or all-digit name) raises `IndexError`. -/
def fmtScan (d : List (Str × Str)) : Str → Except Str Str
  | [] => .ok []
  | ['{'] => .error errSingleOpen
  | '{' :: '{' :: rest2 =>
    match fmtScan d rest2 with
    | .ok s => .ok ('{' :: s)
    | .error e => .error e
  | '{' :: c2 :: rest2 =>
    match htf : takeField (c2 :: rest2) with
    | none => .error errUnterminated
    | some (name, rest3) =>
      if name.all (·.isDigit) then .error errPositional
      else
        match fmtScan d rest3 with
        | .ok s => .ok (safeDictLookup d name ++ s)
        | .error e => .error e
  | ['}'] => .error errSingleClose
  | '}' :: '}' :: rest2 =>
    match fmtScan d rest2 with
    | .ok s => .ok ('}' :: s)
    | .error e => .error e
  | '}' :: _ :: _ => .error errSingleClose
  | c :: rest =>
    match fmtScan d rest with
    | .ok s => .ok (c :: s)
    | .error e => .error e
termination_by l => l.length
decreasing_by
  all_goals simp_wf
  all_goals first
    | omega
    | (have hlen : ∀ l n r, takeField l = some (n, r) → r.length < l.length := by
         intro l
         induction l with
         | nil => intro n r h; simp [takeField] at h
         | cons c rest ih =>
           intro n r h
           simp only [takeField] at h
           split at h
           · simp only [Option.some.injEq, Prod.mk.injEq] at h
             obtain ⟨_, rfl⟩ := h
             simp
           · cases heq : takeField rest with
             | none => rw [heq] at h; exact absurd h (by simp)
             | some p =>
               rw [heq] at h
               obtain ⟨n0, r0⟩ := p
               simp only [Option.some.injEq, Prod.mk.injEq] at h
               obtain ⟨_, h2⟩ := h
               subst h2
               exact Nat.lt_succ_of_lt (ih n0 r0 heq)
       have := hlen _ _ _ htf
       simp at this ⊢
       omega)

/-- `fill_template(template, row)` (src/app.py:76-81):
`template.format_map(SafeDict(\x7bk: ("" if pd.isna(v) else str(v)) ...\x7d))`.
Fallible because the underlying format scanner raises on malformed braces. -/
def fill_template (template : Str) (row : Row) : Except Str Str :=
  fmtScan (convertRow row) template

/-!
## Validation gate (src/valid_email.py)

`is_email_valid(email)` issues an HTTP GET and post-processes the response.
We model the already-received, well-formed response (status code plus the
parsed body's optional `deliverability` field) and embed the pure mapping
the function applies to it.  The network call itself (and a body that fails
to parse as JSON) can raise; in the batch workers below that possibility is
an `Except.error` in the per-row effect record.
-/

/-- A well-formed HTTP response from the address-verification service:
status code, and the `deliverability` field of the parsed JSON body
(`none` when the field is absent). -/
structure HttpResp where
  status : Nat
  deliverability : Option Str
deriving DecidableEq, Repr

/-- `is_email_valid` (src/valid_email.py:3-24) as a function of the
received response: 422 → `none` (quota), any other non-200 → `none`
(error), 200 → compare `data.get("deliverability", "UNDELIVERABLE")`
against `"DELIVERABLE"`. -/
def is_email_valid (r : HttpResp) : Option Bool :=
  if r.status = 422 then none
  else if r.status ≠ 200 then none
  else if r.deliverability.getD (s2c "UNDELIVERABLE") = s2c "DELIVERABLE" then some true
  else some false

/-- Python truthiness of a `bool | None` value: `None` and `False` are
falsy.  The workers test `if not ok:` on the result of `is_email_valid`. -/
def pyTruthy : Option Bool → Bool
  | some b => b
  | none => false

/-!
## Enrichment provider (src/app.py:401-414, `ApiSendPage._fetch_attendance`)
-/

/-- The structured payload `_fetch_attendance` produces: the `absent`
inclusion flag and the `date` field. -/
structure Attendance where
  absent : Bool
  date : Str
deriving DecidableEq, Repr

/-- `int(str(student_id)[-1])` with `except: n = 1`: the last character's
digit value, defaulting to 1 when the id is empty or its last character is
not an ASCII decimal digit.  CPython's `int()` additionally parses
non-ASCII Unicode decimal digits (category Nd, e.g. Arabic-Indic or
fullwidth digits), which this model does not enumerate; theorems therefore
only rely on this function where its branches agree with `int()` — ASCII
digits, and determinism in the last character. -/
def lastDigitOr1 (sid : Str) : Nat :=
  match sid.getLast? with
  | none => 1
  | some c => if c.isDigit then c.toNat - 48 else 1

/-- Simulated `_fetch_attendance` (src/app.py:402-409): odd last digit →
absent, even → present; always the fixed synthetic date. -/
def fetchAttendanceSim (sid : Str) : Attendance :=
  { absent := lastDigitOr1 sid % 2 == 1, date := s2c "2025-08-23" }

/-!
## Transport (src/app.py:53-73, `send_email_smtp`)

The function builds a multipart message, then in a `try` block connects
(`smtplib.SMTP(...)`, which also covers the `int(port)` conversion),
optionally negotiates STARTTLS, logs in, and submits; the `finally` block
calls `server.quit()` whenever `server` was assigned (i.e. the connect
succeeded).  We model the outcome of each external step as an `Except` and
return the overall result together with whether `quit` was called.
-/

deriving instance DecidableEq for Except

/-- Outcomes of the external steps a single `send_email_smtp` call makes. -/
structure SmtpFx where
  connectRes : Except Str Unit
  starttlsRes : Except Str Unit
  loginRes : Except Str Unit
  sendmailRes : Except Str Unit
deriving DecidableEq, Repr

/-- `send_email_smtp` (src/app.py:53-73): result of the call, paired with
whether `server.quit()` ran in the `finally` block. -/
def send_email_smtp (use_tls : Bool) (fx : SmtpFx) : Except Str Unit × Bool :=
  match fx.connectRes with
  | .error e => (.error e, false)
  | .ok _ =>
    match (if use_tls then fx.starttlsRes else .ok ()) with
    | .error e => (.error e, true)
    | .ok _ =>
      match fx.loginRes with
      | .error e => (.error e, true)
      | .ok _ =>
        match fx.sendmailRes with
        | .error e => (.error e, true)
        | .ok _ => (.ok (), true)

/-!
## Batch workers (src/app.py:293-326 and 431-464)
-/

/-- Python `str.strip()` on our character lists. -/
def pyStrip (s : Str) : Str :=
  (s.dropWhile Char.isWhitespace).reverse.dropWhile Char.isWhitespace |>.reverse

/-- SMTP settings dict: the four credential/endpoint fields (strings in the
UI, empty = unconfigured) plus the STARTTLS flag. -/
structure Settings where
  sender_email : Str
  app_password : Str
  smtp_host : Str
  smtp_port : Str
  use_tls : Bool
deriving DecidableEq, Repr

/-- `[k for k in ("sender_email", "app_password", "smtp_host", "smtp_port")
if not settings.get(k)]` — the falsy (empty) required settings. -/
def missingSettings (s : Settings) : List Str :=
  (if s.sender_email = [] then [s2c "sender_email"] else []) ++
  (if s.app_password = [] then [s2c "app_password"] else []) ++
  (if s.smtp_host = [] then [s2c "smtp_host"] else []) ++
  (if s.smtp_port = [] then [s2c "smtp_port"] else [])

/-- A loaded dataset: ordered column names and rows (each row a dict over
exactly those columns). -/
structure Dataset where
  columns : List Str
  rows : List Row
deriving DecidableEq, Repr

/-- The per-row outcome recorded in the log, tagged with the destination
address: `✔ Sent`, `✖ Invalid address` (validation skip in the base
worker), `→ Skipped` (sentinel skip in the API worker), or `✖ Failed`. -/
inductive Outcome where
  | sent (dest : Str)
  | invalid (dest : Str)
  | skipped (dest reason : Str)
  | failed (dest reason : Str)
deriving DecidableEq, Repr

/-- External effects observed while processing one row: the HTTP response
of the validation service for this row's address (`Except.error` when the
request itself raises), and the transport step outcomes. -/
structure RowFx where
  validResp : Except Str HttpResp
  smtp : SmtpFx
deriving DecidableEq, Repr

/-- `str(row[email_col])`: the destination address of a row.  Rows of a
loaded dataset carry every column, so the lookup cannot actually miss. -/
def rowAddr (emailCol : Str) (row : Row) : Str :=
  pyStr ((pyDictLookup row emailCol).getD .nan)

/-- One iteration of the base worker loop (src/app.py:310-323): compose,
optionally validate (`if check == True`), then send; any exception from a
step becomes `✖ Failed`.  Returns the outcome logged for the row and
whether `send_email_smtp` was invoked (a delivery attempt). -/
def runRowBase (check : Bool) (compose : Row → Except Str (Str × Str))
    (settings : Settings) (emailCol : Str) (fx : RowFx) (row : Row) :
    Outcome × Bool :=
  let dest := rowAddr emailCol row
  match compose row with
  | .error e => (.failed dest e, false)
  | .ok _ =>
    if check then
      match fx.validResp with
      | .error e => (.failed dest e, false)
      | .ok resp =>
        if pyTruthy (is_email_valid resp) then
          match (send_email_smtp settings.use_tls fx.smtp).1 with
          | .ok _ => (.sent dest, true)
          | .error e => (.failed dest e, true)
        else (.invalid dest, false)
    else
      match (send_email_smtp settings.use_tls fx.smtp).1 with
      | .ok _ => (.sent dest, true)
      | .error e => (.failed dest e, true)

/-- The base worker loop body over all rows, in dataset order; `fx i` is
the external world seen by row `i`. -/
def workerBase (check : Bool) (compose : Row → Except Str (Str × Str))
    (settings : Settings) (emailCol : Str) (fx : Nat → RowFx)
    (rows : List Row) : List Outcome :=
  rows.enum.map (fun p => (runRowBase check compose settings emailCol (fx p.1) p.2).1)

/-- Precondition error messages shown by `safe_show_error`. -/
def errNoFile : Str := s2c "Please choose an Excel/CSV file first."

/-- Error shown when the configured email column is absent. -/
def errNoEmailCol : Str := s2c "Email column not found."

/-- Error shown when required SMTP settings are missing. -/
def errSmtpMissing : Str := s2c "Configure SMTP settings first."

/-- `BaseSendPage.send_all` (src/app.py:293-326): the three precondition
checks, then the worker pass over all rows.  `Except.error` means the run
never starts (a single error dialog, zero outcomes). -/
def send_all_base (df : Option Dataset) (emailColRaw : Str)
    (settings : Settings) (check : Bool)
    (compose : Row → Except Str (Str × Str)) (fx : Nat → RowFx) :
    Except Str (List Outcome) :=
  match df with
  | none => .error errNoFile
  | some d =>
    let emailCol := pyStrip emailColRaw
    if emailCol ∈ d.columns then
      if missingSettings settings = [] then
        .ok (workerBase check compose settings emailCol fx d.rows)
      else .error errSmtpMissing
    else .error errNoEmailCol

/-!
## API-assisted flow (src/app.py:366-464, `ApiSendPage`)
-/

/-- External effects observed while processing one row of the API flow:
the live enrichment fetch's result (used only when the simulate flag is
off; `Except.error` when the request raises or a non-2xx status triggers
`raise_for_status`), and the transport step outcomes. -/
structure ApiRowFx where
  fetchRes : Except Str Attendance
  smtp : SmtpFx
deriving DecidableEq, Repr

/-- `ApiSendPage._compose` (src/app.py:416-429): look up the id column
(raising `ValueError` when absent from the row), fetch attendance
(simulated or live), return the sentinel pair `("skip", " Skip: not
absent")` when not absent, otherwise merge the fetched fields over the row
and render both templates.  In live mode a response payload without an
`absent` field is beyond this model (the claims only exercise the
simulated provider and the error path). -/
def api_compose (simulate : Bool) (fetchRes : Except Str Attendance)
    (sidColRaw subjectTpl bodyTpl : Str) (row : Row) :
    Except Str (Str × Str) :=
  let sidCol := pyStrip sidColRaw
  match pyDictLookup row sidCol with
  | none => .error (s2c "ValueError: ID column not found in row.")
  | some v =>
    match (if simulate then .ok (fetchAttendanceSim (pyStr v)) else fetchRes) with
    | .error e => .error e
    | .ok data =>
      if data.absent = false then
        .ok (s2c "skip", s2c " Skip: not absent")
      else
        let merged : Row :=
          row ++ [(s2c "absent", .bool data.absent), (s2c "date", .str data.date)]
        match fill_template (pyStrip subjectTpl) merged with
        | .error e => .error e
        | .ok subject =>
          match fill_template (pyStrip bodyTpl) merged with
          | .error e => .error e
          | .ok body => .ok (subject, body)

/-- Does `l` start with `pat`? -/
def startsWith : Str → Str → Bool
  | [], _ => true
  | _ :: _, [] => false
  | a :: pat, b :: l => a = b && startsWith pat l

/-- Python's substring containment `pat in l`. -/
def containsSub (pat : Str) : Str → Bool
  | [] => startsWith pat []
  | l@(_ :: rest) => startsWith pat l || containsSub pat rest

/-- One iteration of the API worker loop (src/app.py:449-461): compose,
skip when the composed subject contains the substring "skip" (Python's
`"skip" in subject`), otherwise send; any exception becomes `✖ Failed`.
Returns the outcome and whether delivery was attempted. -/
def runRowApi (simulate : Bool) (settings : Settings)
    (sidCol subjectTpl bodyTpl emailCol : Str) (fx : ApiRowFx) (row : Row) :
    Outcome × Bool :=
  let dest := rowAddr emailCol row
  match api_compose simulate fx.fetchRes sidCol subjectTpl bodyTpl row with
  | .error e => (.failed dest e, false)
  | .ok (subject, body) =>
    if containsSub (s2c "skip") subject then (.skipped dest body, false)
    else
      match (send_email_smtp settings.use_tls fx.smtp).1 with
      | .ok _ => (.sent dest, true)
      | .error e => (.failed dest e, true)

/-- The API worker loop body over all rows, in dataset order. -/
def workerApi (simulate : Bool) (settings : Settings)
    (sidCol subjectTpl bodyTpl emailCol : Str) (fx : Nat → ApiRowFx)
    (rows : List Row) : List Outcome :=
  rows.enum.map
    (fun p => (runRowApi simulate settings sidCol subjectTpl bodyTpl emailCol (fx p.1) p.2).1)

/-- `ApiSendPage.send_all` (src/app.py:431-464): same precondition checks
as the base page, then the API worker pass over all rows. -/
def send_all_api (df : Option Dataset) (emailColRaw : Str)
    (settings : Settings) (simulate : Bool)
    (sidCol subjectTpl bodyTpl : Str) (fx : Nat → ApiRowFx) :
    Except Str (List Outcome) :=
  match df with
  | none => .error errNoFile
  | some d =>
    let emailCol := pyStrip emailColRaw
    if emailCol ∈ d.columns then
      if missingSettings settings = [] then
        .ok (workerApi simulate settings sidCol subjectTpl bodyTpl emailCol fx d.rows)
      else .error errSmtpMissing
    else .error errNoEmailCol

/-!
## Structured templates

For theorems that quantify over all templates made of literal text and
`\x7bname\x7d` placeholders, we describe a template as a list of chunks and
relate the scanner's output on the flattened text to a direct
substitution semantics.
-/

/-- A structured template: literal text alternating with named
placeholders. -/
inductive Chunk where
  | lit (s : Str)
  | hole (name : Str)
deriving DecidableEq, Repr

/-- Well-formed chunk: literal text carries no brace; a placeholder name is
brace-free, avoids the format mini-language characters the scanner does not
model, and is not a positional field (not empty, not all digits). -/
def chunkWF : Chunk → Bool
  | .lit s => s.all (fun c => !(c = '{' || c = '}'))
  | .hole n =>
    n.all (fun c => !(c = '{' || c = '}' || c = ':' || c = '!' || c = '.' || c = '[' || c = ']'))
      && !(n.all (·.isDigit))

/-- The template text a chunk list denotes. -/
def flattenChunks : List Chunk → Str
  | [] => []
  | .lit s :: t => s ++ flattenChunks t
  | .hole n :: t => '{' :: (n ++ '}' :: flattenChunks t)

/-- Reference substitution semantics over structured templates: literals
pass through, placeholders are replaced by the dict lookup (missing keys
become empty). -/
def renderChunks (d : List (Str × Str)) : List Chunk → Str
  | [] => []
  | .lit s :: t => s ++ renderChunks d t
  | .hole n :: t => safeDictLookup d n ++ renderChunks d t

/-! ## General lemmas about the scanner and dict lookups -/

theorem takeField_length : ∀ l n r, takeField l = some (n, r) → r.length < l.length := by
  intro l
  induction l with
  | nil => intro n r h; simp [takeField] at h
  | cons c rest ih =>
    intro n r h
    simp only [takeField] at h
    split at h
    · simp only [Option.some.injEq, Prod.mk.injEq] at h
      obtain ⟨_, rfl⟩ := h
      simp
    · cases heq : takeField rest with
      | none => rw [heq] at h; exact absurd h (by simp)
      | some p =>
        rw [heq] at h
        obtain ⟨n0, r0⟩ := p
        simp only [Option.some.injEq, Prod.mk.injEq] at h
        obtain ⟨_, h2⟩ := h
        subst h2
        exact Nat.lt_succ_of_lt (ih n0 r0 heq)

theorem takeField_append (n r : Str) (hn : '}' ∉ n) :
    takeField (n ++ '}' :: r) = some (n, r) := by
  induction n with
  | nil => simp [takeField]
  | cons c n' ih =>
    have hc : c ≠ '}' := by intro h; exact hn (by simp [h])
    have ih2 := ih (fun h => hn (List.mem_cons_of_mem _ h))
    simp [takeField, hc, ih2]

theorem fmtScan_nil (d : List (Str × Str)) : fmtScan d [] = .ok [] := by
  rw [fmtScan.eq_def]

theorem fmtScan_cons_other (d : List (Str × Str)) (c : Char) (l : Str)
    (hc1 : c ≠ '{') (hc2 : c ≠ '}') :
    fmtScan d (c :: l) =
      match fmtScan d l with
      | .ok s => .ok (c :: s)
      | .error e => .error e := by
  conv_lhs => rw [fmtScan.eq_def]
  split <;> simp_all

theorem fmtScan_open_some (d : List (Str × Str)) (c2 : Char) (rest2 name rest3 : Str)
    (hc2 : c2 ≠ '{')
    (h : takeField (c2 :: rest2) = some (name, rest3)) :
    fmtScan d ('{' :: c2 :: rest2) =
      if name.all (·.isDigit) then .error errPositional
      else
        match fmtScan d rest3 with
        | .ok s => .ok (safeDictLookup d name ++ s)
        | .error e => .error e := by
  conv_lhs => rw [fmtScan.eq_def]
  split
  all_goals try simp_all
  case h_4 => split <;> simp_all
  case h_8 =>
    rename_i hA hB hC hD heq
    exact absurd heq.2.symm (hB c2 rest2 heq.1.symm)

theorem fmtScan_append_lit (d : List (Str × Str)) (s rest : Str)
    (hs : s.all (fun c => !(c = '{' || c = '}')) = true) :
    fmtScan d (s ++ rest) =
      match fmtScan d rest with
      | .ok t => .ok (s ++ t)
      | .error e => .error e := by
  induction s with
  | nil =>
    simp only [List.nil_append]
    cases h : fmtScan d rest <;> simp [h]
  | cons c s' ih =>
    simp only [List.all_cons, Bool.and_eq_true, Bool.not_eq_true', Bool.or_eq_false_iff,
      decide_eq_false_iff_not] at hs
    obtain ⟨⟨hc1, hc2⟩, hs'⟩ := hs
    have ih2 := ih (by simpa using hs')
    rw [List.cons_append, fmtScan_cons_other d c _ hc1 hc2, ih2]
    cases fmtScan d rest <;> rfl

/-- On a template assembled from well-formed chunks, the scanner succeeds
and produces exactly the direct substitution semantics. -/
theorem fmtScan_chunks (d : List (Str × Str)) :
    ∀ ts : List Chunk, (∀ ch ∈ ts, chunkWF ch = true) →
    fmtScan d (flattenChunks ts) = .ok (renderChunks d ts) := by
  intro ts
  induction ts with
  | nil => intro _; exact fmtScan_nil d
  | cons ch t ih =>
    intro hwf
    have hch := hwf ch (List.mem_cons_self ch t)
    have iht := ih (fun c hc => hwf c (List.mem_cons_of_mem _ hc))
    cases ch with
    | lit s =>
      simp only [flattenChunks, renderChunks]
      rw [fmtScan_append_lit d s _ (by simpa [chunkWF] using hch), iht]
    | hole n =>
      simp only [chunkWF, Bool.and_eq_true, Bool.not_eq_true'] at hch
      obtain ⟨hchars, hdig⟩ := hch
      have hnb : '}' ∉ n := by
        intro hmem
        have := List.all_eq_true.mp hchars _ hmem
        simp at this
      cases n with
      | nil => simp at hdig
      | cons c0 n' =>
        have hc0 : c0 ≠ '{' := by
          have := List.all_eq_true.mp hchars c0 (List.mem_cons_self _ _)
          simp at this
          tauto
        simp only [flattenChunks, renderChunks]
        rw [show ('{' :: (c0 :: n' ++ '}' :: flattenChunks t)) =
            '{' :: c0 :: (n' ++ '}' :: flattenChunks t) from rfl]
        rw [fmtScan_open_some d c0 (n' ++ '}' :: flattenChunks t) (c0 :: n') (flattenChunks t) hc0
          (takeField_append (c0 :: n') (flattenChunks t) hnb)]
        rw [if_neg (by simp [hdig]), iht]

theorem lookup_convert (l : List (Str × Value)) (k : Str) :
    List.lookup k (l.map (fun kv => (kv.1, if kv.2.isna then ([] : Str) else pyStr kv.2)))
      = (List.lookup k l).map (fun v => if v.isna then ([] : Str) else pyStr v) := by
  induction l with
  | nil => rfl
  | cons a t ih =>
    obtain ⟨ka, va⟩ := a
    simp only [List.map_cons, List.lookup]
    cases h : (k == ka) <;> simp [ih]

/-- The `SafeDict` that `fill_template` builds realises exactly the
claimed substitution source: missing key → empty, null/NaN value → empty,
any other value → its Python string form. -/
theorem safeDict_convertRow (row : Row) (k : Str) :
    safeDictLookup (convertRow row) k =
      match pyDictLookup row k with
      | none => []
      | some v => if v.isna then [] else pyStr v := by
  unfold safeDictLookup convertRow pyDictLookup
  rw [show (row.map (fun kv => (kv.1, if kv.2.isna then ([] : Str) else pyStr kv.2))).reverse
      = row.reverse.map (fun kv => (kv.1, if kv.2.isna then ([] : Str) else pyStr kv.2)) by
    rw [List.map_reverse]]
  rw [lookup_convert]
  cases List.lookup k row.reverse <;> rfl

/-! ## Claim theorems -/

/-- C1: the claim states that `fill_template` never raises, even on
malformed braces.  The code calls `str.format_map`, which raises
`ValueError` on a lone open brace, so the claim fails on the code (the
spec explicitly requires a non-raising scanner, so this is a code bug):
at the one-character template consisting of a single open brace and the
empty row, the embedded `fill_template` returns the `ValueError`. -/
theorem C1_fill_template_raises_on_malformed_brace :
    fill_template ['{'] [] = .error errSingleOpen := by
  simp [fill_template, fmtScan]

/-- C4: the validation gate maps a 422 response to Indeterminate
(`none`), any other non-200 to Indeterminate, a 200 response with
`deliverability = "DELIVERABLE"` to Deliverable (`some true`), and any
other 200 response to Undeliverable (`some false`).  `is_email_valid` is
a total Lean function of the well-formed response, so it never raises. -/
theorem C4_validation_gate_mapping (r : HttpResp) :
    (r.status = 422 → is_email_valid r = none) ∧
    (r.status ≠ 200 → is_email_valid r = none) ∧
    (r.status = 200 → r.deliverability.getD (s2c "UNDELIVERABLE") = s2c "DELIVERABLE" →
      is_email_valid r = some true) ∧
    (r.status = 200 → r.deliverability.getD (s2c "UNDELIVERABLE") ≠ s2c "DELIVERABLE" →
      is_email_valid r = some false) := by
  refine ⟨?_, ?_, ?_, ?_⟩ <;> intros <;> simp_all [is_email_valid]

theorem C4_validation_gate_mapping_witness :
    is_email_valid ⟨422, none⟩ = none ∧
    is_email_valid ⟨503, some (s2c "DELIVERABLE")⟩ = none ∧
    is_email_valid ⟨200, some (s2c "DELIVERABLE")⟩ = some true ∧
    is_email_valid ⟨200, some (s2c "RISKY")⟩ = some false ∧
    is_email_valid ⟨200, none⟩ = some false :=
  ⟨(C4_validation_gate_mapping ⟨422, none⟩).1 rfl,
   (C4_validation_gate_mapping ⟨503, some (s2c "DELIVERABLE")⟩).2.1 (by decide),
   (C4_validation_gate_mapping ⟨200, some (s2c "DELIVERABLE")⟩).2.2.1 rfl (by decide),
   (C4_validation_gate_mapping ⟨200, some (s2c "RISKY")⟩).2.2.2 rfl (by decide),
   (C4_validation_gate_mapping ⟨200, none⟩).2.2.2 rfl (by decide)⟩

/-- C7: simulated enrichment is a deterministic pure function of the id's
last character: ids with the same last character get identical results; an
odd last digit yields `absent = true` together with the fixed synthetic
date, an even last digit yields `absent = false` (with the same fixed
extra fields). -/
theorem C7_sim_enrichment_pure_of_last_char (a b : Str) (c : Char) :
    (a.getLast? = b.getLast? → fetchAttendanceSim a = fetchAttendanceSim b) ∧
    (a.getLast? = some c → c.isDigit = true → (c.toNat - 48) % 2 = 1 →
      fetchAttendanceSim a = ⟨true, s2c "2025-08-23"⟩) ∧
    (a.getLast? = some c → c.isDigit = true → (c.toNat - 48) % 2 = 0 →
      fetchAttendanceSim a = ⟨false, s2c "2025-08-23"⟩) := by
  refine ⟨fun h => ?_, fun h hd hm => ?_, fun h hd hm => ?_⟩
  · simp [fetchAttendanceSim, lastDigitOr1, h]
  · simp [fetchAttendanceSim, lastDigitOr1, h, hd, hm]
  · simp [fetchAttendanceSim, lastDigitOr1, h, hd, hm]

theorem C7_sim_enrichment_pure_of_last_char_witness :
    ((s2c "S123").getLast? = (s2c "7123").getLast? ∧
      fetchAttendanceSim (s2c "S123") = fetchAttendanceSim (s2c "7123")) ∧
    ((s2c "S123").getLast? = some '3' ∧
      fetchAttendanceSim (s2c "S123") = ⟨true, s2c "2025-08-23"⟩) ∧
    ((s2c "S124").getLast? = some '4' ∧
      fetchAttendanceSim (s2c "S124") = ⟨false, s2c "2025-08-23"⟩) :=
  ⟨⟨by decide, (C7_sim_enrichment_pure_of_last_char (s2c "S123") (s2c "7123") '3').1 (by decide)⟩,
   ⟨by decide, (C7_sim_enrichment_pure_of_last_char (s2c "S123") (s2c "S123") '3').2.1
      (by decide) (by decide) (by decide)⟩,
   ⟨by decide, (C7_sim_enrichment_pure_of_last_char (s2c "S124") (s2c "S124") '4').2.2
      (by decide) (by decide) (by decide)⟩⟩

/-- C8: on every exit path of `send_email_smtp` — normal completion, TLS
failure, login failure, or recipient rejection — once the connect step has
succeeded (the session is established), the `finally` block runs
`server.quit()`, releasing the session. -/
theorem C8_smtp_session_released (use_tls : Bool) (fx : SmtpFx)
    (h : fx.connectRes = .ok ()) :
    (send_email_smtp use_tls fx).2 = true := by
  obtain ⟨cr, sr, lr, mr⟩ := fx
  simp only at h
  subst h
  cases use_tls <;> cases sr <;> cases lr <;> cases mr <;> rfl

theorem C8_smtp_session_released_witness :
    ((SmtpFx.mk (.ok ()) (.error (s2c "tls handshake failed")) (.ok ()) (.ok ())).connectRes
        = .ok () ∧
      (send_email_smtp true ⟨.ok (), .error (s2c "tls handshake failed"), .ok (), .ok ()⟩).2
        = true) ∧
    ((SmtpFx.mk (.ok ()) (.ok ()) (.ok ()) (.error (s2c "recipient refused"))).connectRes
        = .ok () ∧
      (send_email_smtp false ⟨.ok (), .ok (), .ok (), .error (s2c "recipient refused")⟩).2
        = true) :=
  ⟨⟨rfl, C8_smtp_session_released true ⟨.ok (), .error (s2c "tls handshake failed"), .ok (), .ok ()⟩ rfl⟩,
   ⟨rfl, C8_smtp_session_released false ⟨.ok (), .ok (), .ok (), .error (s2c "recipient refused")⟩ rfl⟩⟩

/-- C5: for every template made of literal text and `\x7bname\x7d` placeholders
and every row, `fill_template` succeeds and replaces each placeholder via
the SafeDict: a name missing from the row or bound to the null/NaN marker
becomes the empty string, and every other scalar is converted to its
Python string form; the output is the full substitution (no placeholder
left unresolved). -/
theorem C5_render_replaces_placeholders (ts : List Chunk) (row : Row)
    (hwf : ∀ ch ∈ ts, chunkWF ch = true) :
    fill_template (flattenChunks ts) row = .ok (renderChunks (convertRow row) ts) ∧
    (∀ name, pyDictLookup row name = none → safeDictLookup (convertRow row) name = []) ∧
    (∀ name v, pyDictLookup row name = some v → v.isna = true →
      safeDictLookup (convertRow row) name = []) ∧
    (∀ name v, pyDictLookup row name = some v → v.isna = false →
      safeDictLookup (convertRow row) name = pyStr v) := by
  refine ⟨fmtScan_chunks (convertRow row) ts hwf, ?_, ?_, ?_⟩
  · intro name h
    rw [safeDict_convertRow, h]
  · intro name v h hna
    rw [safeDict_convertRow, h]
    simp [hna]
  · intro name v h hna
    rw [safeDict_convertRow, h]
    simp [hna]

theorem C5_render_replaces_placeholders_witness :
    (∀ ch ∈ [Chunk.lit (s2c "Hi "), Chunk.hole (s2c "name"), Chunk.lit (s2c ", due "),
        Chunk.hole (s2c "due_date"), Chunk.lit (s2c " bal "), Chunk.hole (s2c "balance")],
      chunkWF ch = true) ∧
    fill_template
        (flattenChunks [Chunk.lit (s2c "Hi "), Chunk.hole (s2c "name"), Chunk.lit (s2c ", due "),
          Chunk.hole (s2c "due_date"), Chunk.lit (s2c " bal "), Chunk.hole (s2c "balance")])
        [(s2c "name", .str (s2c "Ann")), (s2c "balance", .nan)]
      = .ok (s2c "Hi Ann, due  bal ") :=
  ⟨by decide,
   by
    have h := (C5_render_replaces_placeholders
      [Chunk.lit (s2c "Hi "), Chunk.hole (s2c "name"), Chunk.lit (s2c ", due "),
        Chunk.hole (s2c "due_date"), Chunk.lit (s2c " bal "), Chunk.hole (s2c "balance")]
      [(s2c "name", .str (s2c "Ann")), (s2c "balance", .nan)] (by decide)).1
    rw [h]
    decide⟩

/-- C3 counterexample: with validation enabled and the service answering
422 (verdict Indeterminate, `None`), the base worker does NOT proceed to
attempt delivery as the claim states: `if not ok` treats `None` as falsy,
so the row is logged as an invalid address, no delivery is attempted, and
the transport is never invoked even though it would succeed. -/
theorem C3_counterexample_indeterminate_is_skipped :
    runRowBase true (fun _ => .ok (s2c "Subject", s2c "Body"))
        ⟨s2c "a@b.c", s2c "pw", s2c "smtp.gmail.com", s2c "587", true⟩ (s2c "email")
        ⟨.ok ⟨422, none⟩, ⟨.ok (), .ok (), .ok (), .ok ()⟩⟩
        [(s2c "email", .str (s2c "x@y.z"))]
      = (.invalid (s2c "x@y.z"), false) := by
  decide

/-- C3 amended: when validation is enabled and the verdict for a row's
address is Indeterminate (`is_email_valid` returns `None`), the worker
fails CLOSED: it records the row as an invalid address and does not
attempt delivery (the `if not ok` check treats `None` like `False`). -/
theorem C3_amended_indeterminate_fails_closed
    (compose : Row → Except Str (Str × Str)) (settings : Settings)
    (emailCol : Str) (fx : RowFx) (row : Row) (r : HttpResp) (sb : Str × Str)
    (hc : compose row = .ok sb) (hv : fx.validResp = .ok r)
    (hi : is_email_valid r = none) :
    runRowBase true compose settings emailCol fx row =
      (.invalid (rowAddr emailCol row), false) := by
  simp [runRowBase, hc, hv, hi, pyTruthy]

theorem C3_amended_indeterminate_fails_closed_witness :
    ((fun (_ : Row) => (Except.ok (s2c "Subject", s2c "Body") : Except Str (Str × Str)))
        [(s2c "email", Value.str (s2c "x@y.z"))] = .ok (s2c "Subject", s2c "Body") ∧
      (RowFx.mk (.ok ⟨422, none⟩) ⟨.ok (), .ok (), .ok (), .ok ()⟩).validResp
        = .ok ⟨422, none⟩ ∧
      is_email_valid ⟨422, none⟩ = none) ∧
    runRowBase true (fun _ => .ok (s2c "Subject", s2c "Body"))
        ⟨s2c "a@b.c", s2c "pw", s2c "smtp.gmail.com", s2c "587", true⟩ (s2c "mail")
        ⟨.ok ⟨422, none⟩, ⟨.ok (), .ok (), .ok (), .ok ()⟩⟩
        [(s2c "mail", .str (s2c "x@y.z"))]
      = (.invalid (rowAddr (s2c "mail") [(s2c "mail", .str (s2c "x@y.z"))]), false) :=
  ⟨⟨rfl, rfl, rfl⟩,
   C3_amended_indeterminate_fails_closed (fun _ => .ok (s2c "Subject", s2c "Body"))
     ⟨s2c "a@b.c", s2c "pw", s2c "smtp.gmail.com", s2c "587", true⟩ (s2c "mail")
     ⟨.ok ⟨422, none⟩, ⟨.ok (), .ok (), .ok (), .ok ()⟩⟩
     [(s2c "mail", .str (s2c "x@y.z"))] ⟨422, none⟩ (s2c "Subject", s2c "Body")
     rfl rfl rfl⟩

/-- C2: once a run starts, both batch workers record exactly one outcome
per row (the outcome list has the dataset's length), emit outcomes in
dataset row order (the i-th outcome is the per-row function of the i-th
row), and never terminate early: an exception raised in a per-row step —
here, composition — is recorded as a Failed outcome for that row, and
every later row still gets its own outcome. -/
theorem C2_one_outcome_per_row_in_order
    (check simulate : Bool) (compose : Row → Except Str (Str × Str))
    (settings : Settings) (emailCol sidCol subjTpl bodyTpl : Str)
    (fx : Nat → RowFx) (afx : Nat → ApiRowFx) (rows : List Row) :
    (workerBase check compose settings emailCol fx rows).length = rows.length ∧
    (∀ i, (h : i < rows.length) →
      (workerBase check compose settings emailCol fx rows)[i]? =
        some (runRowBase check compose settings emailCol (fx i) (rows.get ⟨i, h⟩)).1) ∧
    (∀ i, (h : i < rows.length) → ∀ e, compose (rows.get ⟨i, h⟩) = .error e →
      (runRowBase check compose settings emailCol (fx i) (rows.get ⟨i, h⟩)).1 =
        .failed (rowAddr emailCol (rows.get ⟨i, h⟩)) e) ∧
    (workerApi simulate settings sidCol subjTpl bodyTpl emailCol afx rows).length
      = rows.length ∧
    (∀ i, (h : i < rows.length) →
      (workerApi simulate settings sidCol subjTpl bodyTpl emailCol afx rows)[i]? =
        some (runRowApi simulate settings sidCol subjTpl bodyTpl emailCol (afx i)
          (rows.get ⟨i, h⟩)).1) ∧
    (∀ i, (h : i < rows.length) → ∀ e,
      api_compose simulate (afx i).fetchRes sidCol subjTpl bodyTpl (rows.get ⟨i, h⟩)
        = .error e →
      (runRowApi simulate settings sidCol subjTpl bodyTpl emailCol (afx i)
          (rows.get ⟨i, h⟩)).1 =
        .failed (rowAddr emailCol (rows.get ⟨i, h⟩)) e) := by
  refine ⟨?_, ?_, ?_, ?_, ?_, ?_⟩
  · simp [workerBase]
  · intro i h
    simp [workerBase, List.getElem?_map, List.getElem?_enum,
      List.getElem?_eq_getElem h, List.get_eq_getElem]
  · intro i h e he
    simp only [List.get_eq_getElem] at he
    simp [runRowBase, he]
  · simp [workerApi]
  · intro i h
    simp [workerApi, List.getElem?_map, List.getElem?_enum,
      List.getElem?_eq_getElem h, List.get_eq_getElem]
  · intro i h e he
    simp only [List.get_eq_getElem] at he
    simp [runRowApi, he]

theorem C2_one_outcome_per_row_in_order_witness :
    (workerBase false (fun _ => .ok (s2c "S", s2c "B"))
        ⟨s2c "a@b.c", s2c "pw", s2c "h", s2c "587", true⟩ (s2c "email")
        (fun _ => ⟨.ok ⟨200, none⟩, ⟨.ok (), .ok (), .ok (), .ok ()⟩⟩)
        [[(s2c "email", .str (s2c "a@x.com")), (s2c "student_id", .str (s2c "S124"))],
          [(s2c "email", .str (s2c "bad"))]]).length = 2 ∧
    (workerBase false (fun _ => .ok (s2c "S", s2c "B"))
        ⟨s2c "a@b.c", s2c "pw", s2c "h", s2c "587", true⟩ (s2c "email")
        (fun _ => ⟨.ok ⟨200, none⟩, ⟨.ok (), .ok (), .ok (), .ok ()⟩⟩)
        [[(s2c "email", .str (s2c "a@x.com")), (s2c "student_id", .str (s2c "S124"))],
          [(s2c "email", .str (s2c "bad"))]])[0]? = some (.sent (s2c "a@x.com")) ∧
    (runRowBase false (fun _ => .error (s2c "boom"))
        ⟨s2c "a@b.c", s2c "pw", s2c "h", s2c "587", true⟩ (s2c "email")
        ⟨.ok ⟨200, none⟩, ⟨.ok (), .ok (), .ok (), .ok ()⟩⟩
        [(s2c "email", .str (s2c "a@x.com")), (s2c "student_id", .str (s2c "S124"))]).1 =
      .failed (rowAddr (s2c "email")
        [(s2c "email", .str (s2c "a@x.com")), (s2c "student_id", .str (s2c "S124"))])
        (s2c "boom") ∧
    (workerApi true ⟨s2c "a@b.c", s2c "pw", s2c "h", s2c "587", true⟩
        (s2c "student_id") (s2c "Subject") (s2c "Body") (s2c "email")
        (fun _ => ⟨.error (s2c "offline"), ⟨.ok (), .ok (), .ok (), .ok ()⟩⟩)
        [[(s2c "email", .str (s2c "a@x.com")), (s2c "student_id", .str (s2c "S124"))],
          [(s2c "email", .str (s2c "bad"))]]).length = 2 ∧
    (workerApi true ⟨s2c "a@b.c", s2c "pw", s2c "h", s2c "587", true⟩
        (s2c "student_id") (s2c "Subject") (s2c "Body") (s2c "email")
        (fun _ => ⟨.error (s2c "offline"), ⟨.ok (), .ok (), .ok (), .ok ()⟩⟩)
        [[(s2c "email", .str (s2c "a@x.com")), (s2c "student_id", .str (s2c "S124"))],
          [(s2c "email", .str (s2c "bad"))]])[0]? =
      some (.skipped (s2c "a@x.com") (s2c " Skip: not absent")) := by
  have h := C2_one_outcome_per_row_in_order false true
    (fun _ => .ok (s2c "S", s2c "B"))
    ⟨s2c "a@b.c", s2c "pw", s2c "h", s2c "587", true⟩
    (s2c "email") (s2c "student_id") (s2c "Subject") (s2c "Body")
    (fun _ => ⟨.ok ⟨200, none⟩, ⟨.ok (), .ok (), .ok (), .ok ()⟩⟩)
    (fun _ => ⟨.error (s2c "offline"), ⟨.ok (), .ok (), .ok (), .ok ()⟩⟩)
    [[(s2c "email", .str (s2c "a@x.com")), (s2c "student_id", .str (s2c "S124"))],
      [(s2c "email", .str (s2c "bad"))]]
  have h2 := C2_one_outcome_per_row_in_order false true
    (fun _ => .error (s2c "boom"))
    ⟨s2c "a@b.c", s2c "pw", s2c "h", s2c "587", true⟩
    (s2c "email") (s2c "student_id") (s2c "Subject") (s2c "Body")
    (fun _ => ⟨.ok ⟨200, none⟩, ⟨.ok (), .ok (), .ok (), .ok ()⟩⟩)
    (fun _ => ⟨.error (s2c "offline"), ⟨.ok (), .ok (), .ok (), .ok ()⟩⟩)
    [[(s2c "email", .str (s2c "a@x.com")), (s2c "student_id", .str (s2c "S124"))],
      [(s2c "email", .str (s2c "bad"))]]
  refine ⟨h.1, ?_, ?_, h.2.2.2.1, ?_⟩
  · rw [h.2.1 0 (by decide)]; decide
  · have h3 := h2.2.2.1 0 (by decide) (s2c "boom") (by decide)
    simpa using h3
  · rw [h.2.2.2.2.1 0 (by decide)]; decide

/-- C6: when any of the four required transport settings is empty, or the
configured email column is absent from the dataset's columns, or no
dataset is loaded, `send_all` reports a single precondition error and the
run never starts: the result is an error, so zero outcomes are recorded
and no delivery is attempted. -/
theorem C6_preconditions_abort_run (df : Option Dataset) (emailColRaw : Str)
    (settings : Settings) (check : Bool)
    (compose : Row → Except Str (Str × Str)) (fx : Nat → RowFx)
    (h : df = none ∨ (∃ d, df = some d ∧ pyStrip emailColRaw ∉ d.columns) ∨
      missingSettings settings ≠ []) :
    ∃ e, send_all_base df emailColRaw settings check compose fx = .error e := by
  rcases h with rfl | ⟨d, rfl, hcol⟩ | hmiss
  · exact ⟨errNoFile, rfl⟩
  · refine ⟨errNoEmailCol, ?_⟩
    simp [send_all_base, hcol]
  · cases df with
    | none => exact ⟨errNoFile, rfl⟩
    | some d =>
      by_cases hcol : pyStrip emailColRaw ∈ d.columns
      · refine ⟨errSmtpMissing, ?_⟩
        simp [send_all_base, hcol, hmiss]
      · refine ⟨errNoEmailCol, ?_⟩
        simp [send_all_base, hcol]

theorem C6_preconditions_abort_run_witness :
    (∃ e, send_all_base none (s2c "email")
        ⟨s2c "a@b.c", s2c "pw", s2c "h", s2c "587", true⟩ false
        (fun _ => .ok (s2c "S", s2c "B"))
        (fun _ => ⟨.ok ⟨200, none⟩, ⟨.ok (), .ok (), .ok (), .ok ()⟩⟩) = .error e) ∧
    (∃ e, send_all_base
        (some ⟨[s2c "email"], [[(s2c "email", .str (s2c "a@x.com"))]]⟩) (s2c "mail")
        ⟨s2c "a@b.c", s2c "pw", s2c "h", s2c "587", true⟩ false
        (fun _ => .ok (s2c "S", s2c "B"))
        (fun _ => ⟨.ok ⟨200, none⟩, ⟨.ok (), .ok (), .ok (), .ok ()⟩⟩) = .error e) ∧
    (∃ e, send_all_base
        (some ⟨[s2c "email"], [[(s2c "email", .str (s2c "a@x.com"))]]⟩) (s2c "email")
        ⟨s2c "a@b.c", [], s2c "h", s2c "587", true⟩ false
        (fun _ => .ok (s2c "S", s2c "B"))
        (fun _ => ⟨.ok ⟨200, none⟩, ⟨.ok (), .ok (), .ok (), .ok ()⟩⟩) = .error e) :=
  ⟨C6_preconditions_abort_run none (s2c "email")
      ⟨s2c "a@b.c", s2c "pw", s2c "h", s2c "587", true⟩ false
      (fun _ => .ok (s2c "S", s2c "B"))
      (fun _ => ⟨.ok ⟨200, none⟩, ⟨.ok (), .ok (), .ok (), .ok ()⟩⟩) (Or.inl rfl),
   C6_preconditions_abort_run
     (some ⟨[s2c "email"], [[(s2c "email", .str (s2c "a@x.com"))]]⟩) (s2c "mail")
     ⟨s2c "a@b.c", s2c "pw", s2c "h", s2c "587", true⟩ false
     (fun _ => .ok (s2c "S", s2c "B"))
     (fun _ => ⟨.ok ⟨200, none⟩, ⟨.ok (), .ok (), .ok (), .ok ()⟩⟩)
     (Or.inr (Or.inl ⟨_, rfl, by decide⟩)),
   C6_preconditions_abort_run
     (some ⟨[s2c "email"], [[(s2c "email", .str (s2c "a@x.com"))]]⟩) (s2c "email")
     ⟨s2c "a@b.c", [], s2c "h", s2c "587", true⟩ false
     (fun _ => .ok (s2c "S", s2c "B"))
     (fun _ => ⟨.ok ⟨200, none⟩, ⟨.ok (), .ok (), .ok (), .ok ()⟩⟩)
     (Or.inr (Or.inr (by decide)))⟩

/-- C9: in the API flow, exclusion is signalled by the sentinel string
comparison `"skip" in subject`: whenever the composed subject contains
the substring "skip" — whatever produced it, including a subject
legitimately rendered from the campaign template and row data — the
worker records the row as Skipped and never attempts delivery. -/
theorem C9_sentinel_subject_skips_row (simulate : Bool) (settings : Settings)
    (sidCol subjTpl bodyTpl emailCol : Str) (fx : ApiRowFx) (row : Row)
    (subject body : Str)
    (hc : api_compose simulate fx.fetchRes sidCol subjTpl bodyTpl row = .ok (subject, body))
    (hs : containsSub (s2c "skip") subject = true) :
    runRowApi simulate settings sidCol subjTpl bodyTpl emailCol fx row =
      (.skipped (rowAddr emailCol row) body, false) := by
  simp [runRowApi, hc, hs]

theorem C9_sentinel_subject_skips_row_witness :
    (api_compose true (.error (s2c "offline")) (s2c "student_id")
        (s2c "Absence Alert for " ++ '{' :: s2c "name" ++ ['}']) (s2c "Contact admin.")
        [(s2c "email", .str (s2c "x@y.z")), (s2c "name", .str (s2c "skipper")),
          (s2c "student_id", .str (s2c "S123"))]
      = .ok (s2c "Absence Alert for skipper", s2c "Contact admin.")) ∧
    containsSub (s2c "skip") (s2c "Absence Alert for skipper") = true ∧
    runRowApi true ⟨s2c "a@b.c", s2c "pw", s2c "h", s2c "587", true⟩ (s2c "student_id")
        (s2c "Absence Alert for " ++ '{' :: s2c "name" ++ ['}']) (s2c "Contact admin.")
        (s2c "email")
        ⟨.error (s2c "offline"), ⟨.ok (), .ok (), .ok (), .ok ()⟩⟩
        [(s2c "email", .str (s2c "x@y.z")), (s2c "name", .str (s2c "skipper")),
          (s2c "student_id", .str (s2c "S123"))]
      = (.skipped (rowAddr (s2c "email")
            [(s2c "email", .str (s2c "x@y.z")), (s2c "name", .str (s2c "skipper")),
              (s2c "student_id", .str (s2c "S123"))])
          (s2c "Contact admin."), false) :=
  ⟨by
    simp [api_compose, pyStrip, pyDictLookup, fetchAttendanceSim, lastDigitOr1,
      fill_template, fmtScan, takeField, safeDictLookup, convertRow, pyStr,
      Value.isna, List.lookup, s2c],
   by decide,
   C9_sentinel_subject_skips_row true ⟨s2c "a@b.c", s2c "pw", s2c "h", s2c "587", true⟩
     (s2c "student_id") (s2c "Absence Alert for " ++ '{' :: s2c "name" ++ ['}'])
     (s2c "Contact admin.") (s2c "email")
     ⟨.error (s2c "offline"), ⟨.ok (), .ok (), .ok (), .ok ()⟩⟩
     [(s2c "email", .str (s2c "x@y.z")), (s2c "name", .str (s2c "skipper")),
       (s2c "student_id", .str (s2c "S123"))]
     (s2c "Absence Alert for skipper") (s2c "Contact admin.")
     (by
       simp [api_compose, pyStrip, pyDictLookup, fetchAttendanceSim, lastDigitOr1,
         fill_template, fmtScan, takeField, safeDictLookup, convertRow, pyStr,
         Value.isna, List.lookup, s2c])
     (by decide)⟩
